import Mathlib

/-!
Shallow embedding of `src/generate.py` (agent-monitor).

The program fetches a list of session records, classifies each one with
`get_status`, partitions the classified sessions into three buckets
(active / completed / stuck) inside `generate_dashboard`, and renders one
card per bucket member with `render_agent_card`.  The HTML/CSS text around
the rendered values is presentation plumbing; the embedding keeps the
information content of the rendered artifact (counts, bucket contents,
per-card display strings) in explicit structures.

Numeric fidelity notes:
* Python `/` on ints produces a float.  The idle-time quotient
  `(now - updated) / 1000 / 60` is embedded as exact rational division:
  for integer inputs in the representable range the binary64 rounding
  error (relative ~2^-52) is far smaller than the spacing 1/60000 of the
  exact values, so every comparison against 2 and 5 and every truncation
  to an integer agrees with the float computation.
* `f"{tokens/1000:.1f}"` is embedded exactly: `toDouble` maps the exact
  rational `tokens/1000` to the nearest binary64 value (round half to
  even; inputs at or above 2^1024, which would overflow to infinity, are
  out of modelled range), and `formatOneDec` performs CPython's correctly
  rounded one-decimal formatting (round half to even) of that value.
-/

/-- A session record as consumed by the script: every field is read with
`session.get(key, default)`, so each field may be absent.  Defaults applied
at the use sites are "unnamed" / "unknown" / "unknown" / 0 / 0. -/
structure SessionRecord where
  label : Option String
  kind : Option String
  model : Option String
  totalTokens : Option Nat
  updatedAt : Option Nat
deriving DecidableEq

/-- Result of `run_command` + `json.loads` + `data.get("sessions", [])` in
`get_sessions`: the external call can fail or yield unparseable output
(`failure`, caught by the bare `except`), or parse to an object that may or
may not carry a "sessions" list. -/
inductive FetchResult where
  | failure : FetchResult
  | parsed : Option (List SessionRecord) → FetchResult

/-- `get_sessions` (src/generate.py:20-27): returns the parsed session list,
`[]` when the "sessions" key is absent (the `.get` default), and `[]` when
the command output cannot be parsed (the `except` branch). -/
def get_sessions : FetchResult → List SessionRecord
  | .failure => []
  | .parsed none => []
  | .parsed (some sessions) => sessions

/-- `format_duration` (src/generate.py:29-37).  `if not ms` is true for the
Python values `None` and `0`, both embedded via `Option.getD 0`. -/
def format_duration (ms : Option Nat) : String :=
  let m := ms.getD 0
  if m = 0 then "N/A"
  else
    let minutes := m / 60000
    let hours := minutes / 60
    if 0 < hours then toString hours ++ "h " ++ toString (minutes % 60) ++ "m"
    else toString minutes ++ "m"

/-- Round a rational to the nearest integer, ties to even — the rounding
used both by binary64 arithmetic and by CPython's float `format`. -/
def roundHalfEven (q : ℚ) : ℤ :=
  let n := ⌊q⌋
  let f := q - n
  if f < 1/2 then n
  else if 1/2 < f then n + 1
  else if n % 2 = 0 then n else n + 1

/-- Base-2 logarithm of a positive natural, rounded down, written with an
explicit fuel argument (first component) so that it unfolds by structural
recursion; fuel `n` is enough for input `n`. -/
def natLog2 : ℕ → ℕ → ℕ
  | 0, _ => 0
  | f + 1, n => if n ≤ 1 then 0 else natLog2 f (n / 2) + 1

/-- `⌊log₂ q⌋` for `q ≥ 1` (the only regime `format_tokens` needs: its
argument is `tokens/1000` with `tokens ≥ 1000`). -/
def floorLog2 (q : ℚ) : ℕ :=
  natLog2 ⌊q⌋.toNat ⌊q⌋.toNat

/-- The binary64 (IEEE double) value nearest to the rational `q`, for
`q ≥ 1`; this is the value Python's int-by-int true division produces.
Overflow (q ≥ 2^1024) is out of modelled range. -/
def toDouble (q : ℚ) : ℚ :=
  let e : ℤ := (floorLog2 q : ℤ)
  let scale : ℚ := (2 : ℚ) ^ (52 - e)
  (roundHalfEven (q * scale) : ℚ) / scale

/-- CPython `format(x, ".1f")` for a nonnegative float `x` (the script only
formats nonnegative quotients): correctly rounded to one decimal digit,
ties to even. -/
def formatOneDec (x : ℚ) : String :=
  let m := roundHalfEven (x * 10)
  toString (m / 10) ++ "." ++ toString (m % 10)

/-- `format_tokens` (src/generate.py:39-45).  `if not tokens` is true
exactly for a zero count (the absent case is already defaulted to 0 by the
caller's `session.get("totalTokens", 0)`). -/
def format_tokens (tokens : Nat) : String :=
  if tokens = 0 then "0"
  else if 1000 ≤ tokens then formatOneDec (toDouble ((tokens : ℚ) / 1000)) ++ "k"
  else toString tokens

/-- `get_status` (src/generate.py:47-61): statuses with their icon and color,
first match wins.  `idle_time = (now - updated) / 1000 / 60` is embedded as
an exact rational (see the fidelity note in the file header). -/
def get_status (now : Nat) (s : SessionRecord) : String × String × String :=
  let tokens := s.totalTokens.getD 0
  let updated := s.updatedAt.getD 0
  let idle_time : ℚ := (((now : ℤ) - (updated : ℤ) : ℤ) : ℚ) / 1000 / 60
  if tokens = 0 ∧ 5 < idle_time then ("stuck", "⚠️", "#f85149")
  else if idle_time < 2 then ("active", "🟢", "#3fb950")
  else if 0 < tokens then ("completed", "✅", "#58a6ff")
  else ("idle", "⚪", "#8b949e")

/-- The session dict after `generate_dashboard`'s loop body has set the keys
`_status`, `_icon`, `_color` (src/generate.py:72-75): the original record
plus the three annotations. -/
structure ClassifiedSession where
  record : SessionRecord
  status : String
  icon : String
  color : String
deriving DecidableEq

/-- The annotation step of `generate_dashboard`'s loop body
(src/generate.py:72-75): classify and attach status, icon and color. -/
def classify (now : Nat) (s : SessionRecord) : ClassifiedSession :=
  { record := s
    status := (get_status now s).1
    icon := (get_status now s).2.1
    color := (get_status now s).2.2 }

/-- The categorization loop of `generate_dashboard` (src/generate.py:66-82):
walk the sessions in order, classify each, and append it to the bucket
named by its status; an "idle" session is appended to no bucket.  Returned
as (active, completed, stuck). -/
def categorize (now : Nat) :
    List SessionRecord → List ClassifiedSession × List ClassifiedSession × List ClassifiedSession
  | [] => ([], [], [])
  | s :: rest =>
    let c := classify now s
    let r := categorize now rest
    if c.status = "active" then (c :: r.1, r.2.1, r.2.2)
    else if c.status = "completed" then (r.1, c :: r.2.1, r.2.2)
    else if c.status = "stuck" then (r.1, r.2.1, c :: r.2.2)
    else r

/-- Truncation toward zero, Python's `int()` applied to a float. -/
def pyInt (q : ℚ) : ℤ :=
  if 0 ≤ q then ⌊q⌋ else ⌈q⌉

/-- The information content of one agent card produced by
`render_agent_card` (src/generate.py:347-377): the values interpolated into
the card's HTML. -/
structure AgentCard where
  icon : String
  label : String
  kind : String
  model : String
  idleMinutesDisplay : String
  tokensDisplay : String
  status : String
deriving DecidableEq

/-- `render_agent_card` (src/generate.py:347-377), keeping the interpolated
values and dropping the HTML markup around them.  `idle_minutes` is
`int((now - updated) / 1000 / 60)` and is displayed as `f"{idle_minutes}m"`
(the literal prefix "Idle: " is markup). -/
def render_agent_card (now : Nat) (c : ClassifiedSession) : AgentCard :=
  let label := c.record.label.getD "unnamed"
  let kind := c.record.kind.getD "unknown"
  let tokens := c.record.totalTokens.getD 0
  let model := c.record.model.getD "unknown"
  let updated := c.record.updatedAt.getD 0
  let idle_minutes : ℤ := pyInt ((((now : ℤ) - (updated : ℤ) : ℤ) : ℚ) / 1000 / 60)
  { icon := c.icon
    label := label
    kind := kind
    model := model
    idleMinutesDisplay := toString idle_minutes ++ "m"
    tokensDisplay := format_tokens tokens
    status := c.status }

/-- The information content of the dashboard `generate_dashboard` renders:
the four stat-card counts, the per-bucket card lists (completed limited to
the first 10 with an "... and N more" overflow figure), and whether the
"No agents found" empty state is shown. -/
structure Dashboard where
  activeCount : Nat
  completedCount : Nat
  stuckCount : Nat
  totalCount : Nat
  activeCards : List AgentCard
  completedCards : List AgentCard
  completedOverflow : Option Nat
  stuckCards : List AgentCard
  emptyState : Bool
deriving DecidableEq

/-- `generate_dashboard` (src/generate.py:63-345), information content only:
the stat cards show `len(active)`, `len(completed)`, `len(stuck)`,
`len(sessions)`; the completed section renders `completed[:10]` and, when
`len(completed) > 10`, the figure `len(completed) - 10`; active and stuck
render every member; the empty state appears iff `sessions` is empty. -/
def generate_dashboard (now : Nat) (sessions : List SessionRecord) : Dashboard :=
  let r := categorize now sessions
  let active := r.1
  let completed := r.2.1
  let stuck := r.2.2
  { activeCount := active.length
    completedCount := completed.length
    stuckCount := stuck.length
    totalCount := sessions.length
    activeCards := active.map (render_agent_card now)
    completedCards := (completed.take 10).map (render_agent_card now)
    completedOverflow := if 10 < completed.length then some (completed.length - 10) else none
    stuckCards := stuck.map (render_agent_card now)
    emptyState := sessions.isEmpty }

/-- `main` (src/generate.py:379-392): fetch, then generate; the write of the
HTML file is outside the modelled core. -/
def mainRun (now : Nat) (src : FetchResult) : Dashboard :=
  generate_dashboard now (get_sessions src)

/-- The classifier exactly as the spec words it (§4.1): defaults
`totalTokens = 0` and `updatedAt = 0` for absent fields,
`idleMinutes = (now - updatedAt) / 60000` as an exact number, and the
ordered rule stuck / active / completed / idle with first match winning.
This is the spec-side definition to be compared with `get_status`. -/
def classifierSpec (now : Nat) (s : SessionRecord) : String :=
  let totalTokens := s.totalTokens.getD 0
  let updatedAt := s.updatedAt.getD 0
  let idleMinutes : ℚ := (((now : ℤ) - (updatedAt : ℤ) : ℤ) : ℚ) / 60000
  if totalTokens = 0 ∧ 5 < idleMinutes then "stuck"
  else if idleMinutes < 2 then "active"
  else if 0 < totalTokens then "completed"
  else "idle"

lemma div1000_60 (a : ℤ) : (a : ℚ) / 1000 / 60 = (a : ℚ) / 60000 := by
  rw [div_div]; norm_num

lemma status_cases (now : Nat) (s : SessionRecord) :
    (get_status now s).1 = "stuck" ∨ (get_status now s).1 = "active" ∨
    (get_status now s).1 = "completed" ∨ (get_status now s).1 = "idle" := by
  simp only [get_status]
  split_ifs <;> simp

/-- C1: the classifier assigns exactly one status, the one computed by the
ordered first-match rule of the spec with defaults 0 and
idleMinutes = (now - updatedAt)/60000: get_status agrees with the
spec-side classifier on every record and instant. -/
theorem claim_c1_classifier_rule (now : Nat) (s : SessionRecord) :
    (get_status now s).1 = classifierSpec now s := by
  simp only [get_status, classifierSpec]
  rw [div1000_60]
  split_ifs <;> rfl

/-- C10: the status depends only on totalTokens and updatedAt (and now):
records that agree on those two fields get the same classification,
whatever their label, kind, model. -/
theorem claim_c10_status_noninterference (now : Nat) (s₁ s₂ : SessionRecord)
    (ht : s₁.totalTokens = s₂.totalTokens) (hu : s₁.updatedAt = s₂.updatedAt) :
    get_status now s₁ = get_status now s₂ := by
  unfold get_status
  rw [ht, hu]

theorem claim_c10_witness :
    get_status 100 ⟨some "alpha", some "work", some "m1", some 7, some 5⟩ =
    get_status 100 ⟨none, some "other", none, some 7, some 5⟩ :=
  claim_c10_status_noninterference 100 _ _ rfl rfl

/-- C7: classification, categorization and the dashboard are pure and
deterministic in the input sequence and the instant now: identical inputs
and identical now give identical statuses, buckets and dashboard. -/
theorem claim_c7_deterministic (now : Nat) (ss₁ ss₂ : List SessionRecord)
    (h : ss₁ = ss₂) :
    ss₁.map (fun s => (get_status now s).1) = ss₂.map (fun s => (get_status now s).1) ∧
    categorize now ss₁ = categorize now ss₂ ∧
    generate_dashboard now ss₁ = generate_dashboard now ss₂ := by
  subst h
  exact ⟨rfl, rfl, rfl⟩

theorem claim_c7_witness :
    categorize 10000000 [(⟨none, none, none, some 5, some 9820000⟩ : SessionRecord)] =
    categorize 10000000 [(⟨none, none, none, some 5, some 9820000⟩ : SessionRecord)] :=
  (claim_c7_deterministic 10000000 _ _ rfl).2.1

/-- C9: classification is additive: the classified session keeps every
original field of the record unchanged (label, kind, model, totalTokens,
updatedAt), only the status/icon/color annotation is added, and the
classified sequence projects back to exactly the input sequence (each
record classified by exactly one pass). -/
theorem claim_c9_classification_additive (now : Nat) (s : SessionRecord) :
    (classify now s).record.label = s.label ∧
    (classify now s).record.kind = s.kind ∧
    (classify now s).record.model = s.model ∧
    (classify now s).record.totalTokens = s.totalTokens ∧
    (classify now s).record.updatedAt = s.updatedAt ∧
    (classify now s).record = s ∧
    classify now ((classify now s).record) = classify now s ∧
    ∀ ss : List SessionRecord, (ss.map (classify now)).map (fun c => c.record) = ss := by
  refine ⟨rfl, rfl, rfl, rfl, rfl, rfl, rfl, ?_⟩
  intro ss
  simp [classify, Function.comp_def]

lemma categorize_filters (now : Nat) (ss : List SessionRecord) :
    (categorize now ss).1 = (ss.map (classify now)).filter (fun c => c.status == "active") ∧
    (categorize now ss).2.1 = (ss.map (classify now)).filter (fun c => c.status == "completed") ∧
    (categorize now ss).2.2 = (ss.map (classify now)).filter (fun c => c.status == "stuck") := by
  induction ss with
  | nil => simp [categorize]
  | cons s rest ih =>
    have hc : (classify now s).status = (get_status now s).1 := rfl
    rcases status_cases now s with h | h | h | h <;>
      simp [categorize, hc, h, ih.1, ih.2.1, ih.2.2]

lemma categorize_perm (now : Nat) (ss : List SessionRecord) :
    List.Perm
      ((categorize now ss).1 ++ (categorize now ss).2.1 ++ (categorize now ss).2.2 ++
        (ss.map (classify now)).filter (fun c => c.status == "idle"))
      (ss.map (classify now)) := by
  induction ss with
  | nil => simp [categorize]
  | cons s rest ih =>
    have hc : (classify now s).status = (get_status now s).1 := rfl
    rcases status_cases now s with h | h | h | h
    · simp only [categorize, List.map_cons, hc, h]
      rw [List.filter_cons_of_neg (by simp [hc, h])]
      exact (List.perm_middle.append_right _).trans (ih.cons _)
    · simp only [categorize, List.map_cons, hc, h]
      rw [List.filter_cons_of_neg (by simp [hc, h])]
      exact ih.cons _
    · simp only [categorize, List.map_cons, hc, h]
      rw [List.filter_cons_of_neg (by simp [hc, h])]
      exact ((List.perm_middle.append_right _).append_right _).trans (ih.cons _)
    · simp only [categorize, List.map_cons, hc, h]
      rw [List.filter_cons_of_pos (by simp [hc, h])]
      exact List.perm_middle.trans (ih.cons _)

lemma categorize_length (now : Nat) (ss : List SessionRecord) :
    (categorize now ss).1.length + (categorize now ss).2.1.length +
      (categorize now ss).2.2.length +
      ((ss.map (classify now)).filter (fun c => c.status == "idle")).length = ss.length := by
  have h := (categorize_perm now ss).length_eq
  simp only [List.length_append, List.length_map] at h
  omega

lemma mem_categorize_active {now : Nat} {ss : List SessionRecord} {c : ClassifiedSession}
    (h : c ∈ (categorize now ss).1) : c.status = "active" := by
  rw [(categorize_filters now ss).1] at h
  simpa using (List.mem_filter.1 h).2

lemma mem_categorize_completed {now : Nat} {ss : List SessionRecord} {c : ClassifiedSession}
    (h : c ∈ (categorize now ss).2.1) : c.status = "completed" := by
  rw [(categorize_filters now ss).2.1] at h
  simpa using (List.mem_filter.1 h).2

lemma mem_categorize_stuck {now : Nat} {ss : List SessionRecord} {c : ClassifiedSession}
    (h : c ∈ (categorize now ss).2.2) : c.status = "stuck" := by
  rw [(categorize_filters now ss).2.2] at h
  simpa using (List.mem_filter.1 h).2

/-- C2: the aggregator's three buckets are the stable filters of the
classified input by status tag; bucket members carry exactly that status,
so the buckets never overlap and an idle session is in none of them; the
three buckets together with the idle set are a permutation of (contain
exactly) the full classified input; and the reported total count is the
length of the input sequence. -/
theorem claim_c2_partition (now : Nat) (ss : List SessionRecord) :
    (categorize now ss).1 = (ss.map (classify now)).filter (fun c => c.status == "active") ∧
    (categorize now ss).2.1 = (ss.map (classify now)).filter (fun c => c.status == "completed") ∧
    (categorize now ss).2.2 = (ss.map (classify now)).filter (fun c => c.status == "stuck") ∧
    List.Perm ((categorize now ss).1 ++ (categorize now ss).2.1 ++ (categorize now ss).2.2 ++
      (ss.map (classify now)).filter (fun c => c.status == "idle")) (ss.map (classify now)) ∧
    (∀ c : ClassifiedSession,
      (c ∈ (categorize now ss).1 → c.status = "active") ∧
      (c ∈ (categorize now ss).2.1 → c.status = "completed") ∧
      (c ∈ (categorize now ss).2.2 → c.status = "stuck") ∧
      ¬(c ∈ (categorize now ss).1 ∧ c ∈ (categorize now ss).2.1) ∧
      ¬(c ∈ (categorize now ss).1 ∧ c ∈ (categorize now ss).2.2) ∧
      ¬(c ∈ (categorize now ss).2.1 ∧ c ∈ (categorize now ss).2.2) ∧
      (c.status = "idle" → c ∉ (categorize now ss).1 ∧ c ∉ (categorize now ss).2.1 ∧
        c ∉ (categorize now ss).2.2)) ∧
    (generate_dashboard now ss).totalCount = ss.length := by
  refine ⟨(categorize_filters now ss).1, (categorize_filters now ss).2.1,
    (categorize_filters now ss).2.2, categorize_perm now ss, fun c => ?_, rfl⟩
  refine ⟨fun h => mem_categorize_active h, fun h => mem_categorize_completed h,
    fun h => mem_categorize_stuck h, ?_, ?_, ?_, ?_⟩
  · rintro ⟨h₁, h₂⟩
    have e₁ := mem_categorize_active h₁
    have e₂ := mem_categorize_completed h₂
    rw [e₁] at e₂
    exact absurd e₂ (by decide)
  · rintro ⟨h₁, h₂⟩
    have e₁ := mem_categorize_active h₁
    have e₂ := mem_categorize_stuck h₂
    rw [e₁] at e₂
    exact absurd e₂ (by decide)
  · rintro ⟨h₁, h₂⟩
    have e₁ := mem_categorize_completed h₁
    have e₂ := mem_categorize_stuck h₂
    rw [e₁] at e₂
    exact absurd e₂ (by decide)
  · intro hidle
    refine ⟨fun h => ?_, fun h => ?_, fun h => ?_⟩
    · have := mem_categorize_active h
      rw [hidle] at this
      exact absurd this (by decide)
    · have := mem_categorize_completed h
      rw [hidle] at this
      exact absurd this (by decide)
    · have := mem_categorize_stuck h
      rw [hidle] at this
      exact absurd this (by decide)

theorem claim_c2_witness :
    (classify 10000000 ⟨none, none, none, some 0, some 9820000⟩) ∉
      (categorize 10000000 [⟨none, none, none, none, none⟩,
        ⟨none, none, none, some 0, some 9940000⟩,
        ⟨none, none, none, some 5, some 9820000⟩,
        ⟨none, none, none, some 0, some 9820000⟩]).1 ∧
    (classify 10000000 ⟨none, none, none, some 0, some 9820000⟩) ∉
      (categorize 10000000 [⟨none, none, none, none, none⟩,
        ⟨none, none, none, some 0, some 9940000⟩,
        ⟨none, none, none, some 5, some 9820000⟩,
        ⟨none, none, none, some 0, some 9820000⟩]).2.1 ∧
    (classify 10000000 ⟨none, none, none, some 0, some 9820000⟩) ∉
      (categorize 10000000 [⟨none, none, none, none, none⟩,
        ⟨none, none, none, some 0, some 9940000⟩,
        ⟨none, none, none, some 5, some 9820000⟩,
        ⟨none, none, none, some 0, some 9820000⟩]).2.2 :=
  ((claim_c2_partition 10000000 [⟨none, none, none, none, none⟩,
      ⟨none, none, none, some 0, some 9940000⟩,
      ⟨none, none, none, some 5, some 9820000⟩,
      ⟨none, none, none, some 0, some 9820000⟩]).2.2.2.2.1
    (classify 10000000 ⟨none, none, none, some 0, some 9820000⟩)).2.2.2.2.2.2
    (by norm_num [classify, get_status])

/-- C3: the dashboard renders the completed bucket truncated to its first
10 members, reporting any remainder only as the count len - 10, while the
active and stuck buckets are rendered in full whatever their size. -/
theorem claim_c3_completed_truncation (now : Nat) (ss : List SessionRecord) :
    (generate_dashboard now ss).activeCards =
      (categorize now ss).1.map (render_agent_card now) ∧
    (generate_dashboard now ss).stuckCards =
      (categorize now ss).2.2.map (render_agent_card now) ∧
    (10 < (categorize now ss).2.1.length →
      (generate_dashboard now ss).completedCards =
        ((categorize now ss).2.1.take 10).map (render_agent_card now) ∧
      (generate_dashboard now ss).completedCards.length = 10 ∧
      (generate_dashboard now ss).completedOverflow =
        some ((categorize now ss).2.1.length - 10)) ∧
    ((categorize now ss).2.1.length ≤ 10 →
      (generate_dashboard now ss).completedCards =
        (categorize now ss).2.1.map (render_agent_card now) ∧
      (generate_dashboard now ss).completedOverflow = none) := by
  refine ⟨rfl, rfl, fun h => ⟨rfl, ?_, ?_⟩, fun h => ⟨?_, ?_⟩⟩
  · simp only [generate_dashboard, List.length_map, List.length_take]
    omega
  · simp only [generate_dashboard]
    rw [if_pos h]
  · simp only [generate_dashboard]
    rw [List.take_of_length_le h]
  · simp only [generate_dashboard]
    rw [if_neg (by omega)]

theorem claim_c3_witness :
    (generate_dashboard 10000000
      (List.replicate 11 (⟨none, none, none, some 5, some 9820000⟩ : SessionRecord))).completedCards.length = 10 ∧
    (generate_dashboard 10000000
      (List.replicate 11 (⟨none, none, none, some 5, some 9820000⟩ : SessionRecord))).completedOverflow =
      some ((categorize 10000000
        (List.replicate 11 (⟨none, none, none, some 5, some 9820000⟩ : SessionRecord))).2.1.length - 10) := by
  have h := (claim_c3_completed_truncation 10000000
    (List.replicate 11 (⟨none, none, none, some 5, some 9820000⟩ : SessionRecord))).2.2.1
    (by
      have hst : (classify 10000000
          (⟨none, none, none, some 5, some 9820000⟩ : SessionRecord)).status = "completed" := by
        norm_num [classify, get_status]
      simp [List.replicate, categorize, hst])
  exact ⟨h.2.1, h.2.2⟩

/-- C8: a failed or unparseable fetch yields the empty list, the run then
produces the empty "no sessions found" dashboard with total count 0, the
classifier totally assigns one of the four statuses to every record (any
combination of absent fields included, via defaults), and the aggregator
accounts for every input record: buckets plus idle set sum to the input
length, so no record is rejected or dropped. -/
theorem claim_c8_no_fatal_errors :
    get_sessions FetchResult.failure = [] ∧
    get_sessions (FetchResult.parsed none) = [] ∧
    (∀ now : Nat, (mainRun now FetchResult.failure).totalCount = 0 ∧
      (mainRun now FetchResult.failure).emptyState = true) ∧
    (∀ (now : Nat) (s : SessionRecord),
      (get_status now s).1 = "stuck" ∨ (get_status now s).1 = "active" ∨
      (get_status now s).1 = "completed" ∨ (get_status now s).1 = "idle") ∧
    (∀ (now : Nat) (ss : List SessionRecord),
      (categorize now ss).1.length + (categorize now ss).2.1.length +
        (categorize now ss).2.2.length +
        ((ss.map (classify now)).filter (fun c => c.status == "idle")).length = ss.length) :=
  ⟨rfl, rfl, fun _ => ⟨rfl, rfl⟩, status_cases, categorize_length⟩

/-- C4: the token display renders a zero count as "0", counts 1 to 999 as
their plain decimal representation, and counts from 1000 up as the count
divided by 1000 (as Python's float division computes it) formatted to one
decimal place with a trailing "k"; in particular 999 ↦ "999",
1000 ↦ "1.0k", 2500 ↦ "2.5k". -/
theorem claim_c4_tokens_display (t : Nat) :
    (t = 0 → format_tokens t = "0") ∧
    (1 ≤ t → t ≤ 999 → format_tokens t = toString t) ∧
    (1000 ≤ t → format_tokens t = formatOneDec (toDouble ((t : ℚ) / 1000)) ++ "k") ∧
    format_tokens 0 = "0" ∧ format_tokens 999 = "999" ∧
    format_tokens 1000 = "1.0k" ∧ format_tokens 2500 = "2.5k" := by
  refine ⟨fun h => ?_, fun h1 h2 => ?_, fun h => ?_, rfl, rfl, ?_, ?_⟩
  · subst h; rfl
  · simp only [format_tokens]
    rw [if_neg (by omega), if_neg (by omega)]
  · simp only [format_tokens]
    rw [if_neg (by omega), if_pos h]
  · simp only [format_tokens]
    norm_num [toDouble, floorLog2, natLog2, roundHalfEven, formatOneDec, Int.toNat]
    rfl
  · simp only [format_tokens]
    norm_num [toDouble, floorLog2, natLog2, roundHalfEven, formatOneDec, Int.toNat]
    rfl

theorem claim_c4_witness :
    format_tokens 0 = "0" ∧ format_tokens 500 = "500" ∧
    format_tokens 1000 = formatOneDec (toDouble (((1000 : ℕ) : ℚ) / 1000)) ++ "k" :=
  ⟨(claim_c4_tokens_display 0).1 rfl,
   ((claim_c4_tokens_display 500).2.1 (by omega) (by omega)).trans rfl,
   (claim_c4_tokens_display 1000).2.2.1 (by omega)⟩

/-- C5: the duration display renders a null, zero, or absent millisecond
value as "N/A"; otherwise it converts to whole minutes and renders
"<hours>h <minutes%60>m" when minutes reach 60 and "<minutes>m" below
that; in particular 5400000 ms ↦ "1h 30m" and 1800000 ms ↦ "30m". -/
theorem claim_c5_duration_display (ms : Option Nat) :
    (ms = none → format_duration ms = "N/A") ∧
    (ms = some 0 → format_duration ms = "N/A") ∧
    (∀ m : Nat, ms = some m → 0 < m →
      (60 ≤ m / 60000 →
        format_duration ms =
          toString (m / 60000 / 60) ++ "h " ++ toString (m / 60000 % 60) ++ "m") ∧
      (m / 60000 < 60 → format_duration ms = toString (m / 60000) ++ "m")) ∧
    format_duration none = "N/A" ∧ format_duration (some 0) = "N/A" ∧
    format_duration (some 5400000) = "1h 30m" ∧
    format_duration (some 1800000) = "30m" := by
  refine ⟨fun h => ?_, fun h => ?_, fun m hm hpos => ⟨fun h60 => ?_, fun h60 => ?_⟩,
    rfl, rfl, rfl, rfl⟩
  · subst h; rfl
  · subst h; rfl
  · subst hm
    simp only [format_duration, Option.getD_some]
    rw [if_neg (by omega), if_pos (by omega)]
  · subst hm
    simp only [format_duration, Option.getD_some]
    rw [if_neg (by omega), if_neg (by omega)]

theorem claim_c5_witness :
    format_duration none = "N/A" ∧ format_duration (some 0) = "N/A" ∧
    format_duration (some 5400000) = "1h 30m" ∧ format_duration (some 1800000) = "30m" :=
  ⟨(claim_c5_duration_display none).1 rfl,
   (claim_c5_duration_display (some 0)).2.1 rfl,
   (((claim_c5_duration_display (some 5400000)).2.2.1 5400000 rfl (by omega)).1
     (by omega)).trans rfl,
   (((claim_c5_duration_display (some 1800000)).2.2.1 1800000 rfl (by omega)).2
     (by omega)).trans rfl⟩

lemma append_m_ne_NA (s : String) : s ++ "m" ≠ "N/A" := by
  intro h
  have hd : s.data ++ [('m' : Char)] = [('N' : Char), '/', 'A'] := by
    have h2 := congrArg String.data h
    simpa [String.data_append] using h2
  have hlen : s.data.length + 1 = 3 := by
    simpa using congrArg List.length hd
  obtain ⟨a, b, hab⟩ := List.length_eq_two.mp (by omega : s.data.length = 2)
  rw [hab] at hd
  simp at hd

/-- C6: the idle display on a card is idleMinutes = (now - updatedAt)/60000
truncated toward zero and suffixed "m"; it is computed for every record
(absent or zero updatedAt included) and is never the string "N/A"; and the
classifier's own comparison uses the untruncated quotient: its "stuck"
branch holds exactly when tokens = 0 and the exact rational idle exceeds
5. -/
theorem claim_c6_idle_minutes_display (now : Nat) (c : ClassifiedSession) :
    (render_agent_card now c).idleMinutesDisplay =
      toString (pyInt ((((now : ℤ) - (c.record.updatedAt.getD 0 : ℤ) : ℤ) : ℚ) / 60000)) ++ "m" ∧
    (render_agent_card now c).idleMinutesDisplay ≠ "N/A" ∧
    ∀ s : SessionRecord, (get_status now s).1 = "stuck" ↔
      (s.totalTokens.getD 0 = 0 ∧
        5 < (((now : ℤ) - (s.updatedAt.getD 0 : ℤ) : ℤ) : ℚ) / 60000) := by
  refine ⟨?_, ?_, ?_⟩
  · simp only [render_agent_card]
    rw [div1000_60]
  · simp only [render_agent_card]
    exact append_m_ne_NA _
  · intro s
    simp only [get_status]
    rw [div1000_60]
    split_ifs with h1 h2 h3 <;>
      first
      | exact iff_of_true rfl h1
      | exact iff_of_false (by decide) h1

theorem claim_c6_witness :
    (render_agent_card 10000000
      (classify 10000000 ⟨none, none, none, some 5, some 9669999⟩)).idleMinutesDisplay = "5m" := by
  have h := (claim_c6_idle_minutes_display 10000000
    (classify 10000000 ⟨none, none, none, some 5, some 9669999⟩)).1
  rw [h]
  simp only [classify, Option.getD_some]
  norm_num [pyInt]
  rfl
